import Mathlib

/-!
Shallow embedding of the VPP router plugin (`router.c`): the per-packet
tap-inject classification engine, the ARP-reply learning check, the netlink
mirror handlers, the protocol-list parser and the `tap inject` setup command.

Machine integers (`u32`) are modelled as `Nat`; the C sentinel `~0` is the
constant `u32max`.  IPv4 addresses are modelled as conceptual 32-bit values
(the C code compares `as_u32` fields for equality and for masked-prefix
equality, both of which are byte-order agnostic once a single convention is
fixed).  MAC addresses are byte lists (the C code only compares them with
`memcmp` and tests the multicast bit of the first byte).
-/

namespace Router

/-- The C sentinel `~0` on `u32`. -/
def u32max : Nat := 2 ^ 32 - 1

/-! ### Protocol registry (`PROTO_*`, `proto_strings`, `parse_protos`) -/

/-- Constant `PROTO_BIT_ARP = 1 << PROTO_ARP`, `PROTO_ARP = 0`. -/
def PROTO_BIT_ARP : Nat := 1
/-- Constant `PROTO_BIT_ICMP4 = 1 << PROTO_ICMP4`, `PROTO_ICMP4 = 1`. -/
def PROTO_BIT_ICMP4 : Nat := 2
/-- Constant `PROTO_BIT_IGMP4 = 1 << PROTO_IGMP4`, `PROTO_IGMP4 = 2`. -/
def PROTO_BIT_IGMP4 : Nat := 4
/-- Constant `PROTO_BIT_OSPF2 = 1 << PROTO_OSPF2`, `PROTO_OSPF2 = 3`. -/
def PROTO_BIT_OSPF2 : Nat := 8
/-- Constant `PROTO_BIT_TCP = 1 << PROTO_TCP`, `PROTO_TCP = 4`. -/
def PROTO_BIT_TCP : Nat := 16
/-- Constant `PROTO_BIT_UDP = 1 << PROTO_UDP`, `PROTO_UDP = 5`. -/
def PROTO_BIT_UDP : Nat := 32

/-- The `proto_strings` table, in enumeration order `PROTO_ARP .. PROTO_UDP`. -/
def proto_strings : List String := ["arp", "icmp4", "igmp4", "ospf2", "tcp", "udp"]

/-- The inner loop of `parse_protos`: walk `proto_strings` with index `i`
(the C pointer difference `proto - proto_strings`), or-ing `1 << i` into the
accumulator whenever the token matches.  The C comparison is
`strncmp(tok, *proto, 16)`; every table entry is shorter than 16 characters,
so it is exact string equality. -/
def proto_scan (tok : String) : Nat → List String → Nat → Nat
  | _, [], acc => acc
  | i, p :: ps, acc => proto_scan tok (i + 1) ps (if tok = p then acc ||| (1 <<< i) else acc)

/-- The bitmask contributed by a single token: run the inner loop of
`parse_protos` from a zero accumulator. -/
def tok_bit (tok : String) : Nat := proto_scan tok 0 proto_strings 0

/-- One step of the outer `strtok` loop of `parse_protos`. -/
def parse_step (protos : Nat) (tok : String) : Nat := proto_scan tok 0 proto_strings protos

/-- Function `parse_protos` over an already-tokenised list. -/
def parse_protos_tokens (toks : List String) : Nat := toks.foldl parse_step 0

/-- Tokenizer loop modelling `strtok(s, ",")`: emit the non-empty maximal
comma-free segments of the character stream.  `cur` accumulates the current
token in reverse. -/
def strtok_aux (cur : List Char) : List Char → List String
  | [] => if cur.isEmpty then [] else [String.mk cur.reverse]
  | c :: cs =>
    if c = ',' then
      if cur.isEmpty then strtok_aux [] cs
      else String.mk cur.reverse :: strtok_aux [] cs
    else strtok_aux (c :: cur) cs

/-- The token sequence produced by the `strtok(proto_string, ",")` loop of
`parse_protos`. -/
def strtok (s : String) : List String := strtok_aux [] s.data

/-- Function `parse_protos` on a protocol-list string. -/
def parse_protos (s : String) : Nat := parse_protos_tokens (strtok s)

/-! ### Interface mapping table (`struct router_main`, `struct tap_to_iface`) -/

/-- One entry of the reverse mapping vector `rm.tap_to_iface`. -/
structure TapToIface where
  tap : Nat
  iface : Nat
deriving DecidableEq, Repr

/-- The mutable tables of `struct router_main`.  The sparse vectors
`iface_to_tap` / `iface_to_protos` are modelled as total functions
(`interface_add_del` initialises fresh slots to `~0` / `0`, which are the
out-of-diversion defaults). -/
structure RouterMain where
  iface_to_tap : Nat → Nat
  iface_to_protos : Nat → Nat
  tap_to_iface : List TapToIface
  ns_index : Nat

/-- Reverse lookup shared by the three netlink handlers: linear scan of
`rm.tap_to_iface` for the first entry whose `tap` equals the OS ifindex;
`~0` when none matches. -/
def reverse_lookup (maps : List TapToIface) (t : Nat) : Nat :=
  match maps.find? (fun m => m.tap == t) with
  | some m => m.iface
  | none => u32max

/-- The spec's `get_fastpath(shadow_os_id) -> fastpath_id | none`: the code's
scan result with the `~0` sentinel read back as `none`. -/
def get_fastpath (maps : List TapToIface) (t : Nat) : Option Nat :=
  if reverse_lookup maps t = u32max then none else some (reverse_lookup maps t)

/-! ### ARP-reply learning (`update_arp_entry`) -/

/-- One `ip_interface_address` of the ingress interface: a local IPv4 address
together with its prefix length. -/
structure IfAddrEntry where
  addr : Nat
  prefix_len : Nat
deriving DecidableEq, Repr

/-- Model of the external VPP helper `ip4_destination_matches_interface`:
does `dst` fall inside the subnet of interface address `ifa`?  (The C code
compares the address words under the prefix mask; on conceptual 32-bit
values that is equality of the top `prefix_len` bits.) -/
def ip4_destination_matches_interface (dst : Nat) (ifa : IfAddrEntry) : Bool :=
  dst >>> (32 - ifa.prefix_len) == ifa.addr >>> (32 - ifa.prefix_len)

/-- Model of the external VPP helper
`ip4_interface_address_matching_destination`: the first interface address of
the ingress interface whose subnet contains `dst`, if any. -/
def ip4_interface_address_matching_destination
    (addrs : List IfAddrEntry) (dst : Nat) : Option IfAddrEntry :=
  addrs.find? (fun ifa => ip4_destination_matches_interface dst ifa)

/-- Constant `ETHERNET_ARP_HARDWARE_TYPE_ethernet` (wire value; the C code compares
the raw field against `ntohs` of this constant). -/
def ARP_HW_TYPE_ethernet : Nat := 1
/-- Constant `ETHERNET_TYPE_IP4` (wire value `0x0800`). -/
def ETHERNET_TYPE_IP4 : Nat := 0x0800
/-- Constant `ETHERNET_ARP_OPCODE_reply` (wire value). -/
def ARP_OPCODE_reply : Nat := 2

/-- The fields of `ethernet_arp_header_t` read by the plugin.  `sha`/`spa`
are `ip4_over_ethernet[0]` (sender), `tha`/`tpa` are `ip4_over_ethernet[1]`
(target); `l2_type`, `l3_type` and `opcode` are wire values. -/
structure ArpHeader where
  l2_type : Nat
  l3_type : Nat
  opcode : Nat
  sha : List Nat
  spa : Nat
  tha : List Nat
  tpa : Nat
deriving DecidableEq, Repr

/-- Test `ethernet_address_cast(dst) == ETHERNET_ADDRESS_UNICAST`: the
individual/group bit (bit 0 of the first byte) is clear. -/
def ethernet_address_unicast (dst : List Nat) : Bool :=
  (dst.headD 0) &&& 1 == 0

/-- Function `update_arp_entry`, returning the `(sender IP, sender hardware address)`
pair passed to `vnet_arp_set_ip4_over_ethernet` when the reply is learned
from, and `none` when any of the guards rejects it.  `addrs` is the list of
local addresses of the ingress interface `vlib_rx`. -/
def update_arp_entry (eth_src eth_dst : List Nat) (arp : ArpHeader)
    (addrs : List IfAddrEntry) : Option (Nat × List Nat) :=
  if arp.l2_type ≠ ARP_HW_TYPE_ethernet ∨ arp.l3_type ≠ ETHERNET_TYPE_IP4 then
    none
  else
    match ip4_interface_address_matching_destination addrs arp.tpa with
    | none => none
    | some ifa =>
      if ¬ ip4_destination_matches_interface arp.spa ifa then none
      else if ifa.addr = arp.spa then none
      else if ifa.addr ≠ arp.tpa then none
      else if eth_src ≠ arp.sha then none
      else if arp.spa = 0 ∨ arp.spa = arp.tpa then none
      else if ¬ ethernet_address_unicast eth_dst then none
      else some (arp.spa, arp.sha)

/-! ### Per-packet classification (`tap_inject_func`) -/

/-- Constant `IP_PROTOCOL_TCP`. -/
def IP_PROTOCOL_TCP : Nat := 6
/-- Constant `IP_PROTOCOL_UDP`. -/
def IP_PROTOCOL_UDP : Nat := 17
/-- Constant `IP_PROTOCOL_OSPF`. -/
def IP_PROTOCOL_OSPF : Nat := 89
/-- Constant `IP_PROTOCOL_IGMP`. -/
def IP_PROTOCOL_IGMP : Nat := 2

/-- The `mode` argument of `tap_inject_func` (`ERROR_INJECT_*`). -/
inductive Mode
  | arp
  | icmp
  | classified
deriving DecidableEq, Repr

/-- The two next stages of the inject nodes. -/
inductive Next
  | untapped
  | inject
deriving DecidableEq, Repr

/-- The per-packet inputs of `tap_inject_func`: ingress interface, the IP
protocol field (read only at the classified entry point), the Ethernet frame
addresses and the ARP header (read only at the ARP entry point). -/
structure Packet where
  rx : Nat
  ip_protocol : Nat
  eth_src : List Nat
  eth_dst : List Nat
  arp : ArpHeader

/-- Per-packet outcome: the chosen next stage, the egress interface written
into `sw_if_index[VLIB_TX]` (when redirected), and the address-resolution
upsert performed by `update_arp_entry` (when any). -/
structure ClassifyOut where
  next : Next
  tx : Option Nat
  learn : Option (Nat × List Nat)
deriving DecidableEq

/-- The protocol-bit determination of `tap_inject_func` (`proto_bit`
starts at 0; at the classified entry point it is derived from the IP
header's protocol field, at the ARP / ICMP entry points it is fixed). -/
def determine_proto_bit (mode : Mode) (ip_protocol : Nat) : Nat :=
  match mode with
  | .classified =>
    if ip_protocol = IP_PROTOCOL_TCP then PROTO_BIT_TCP
    else if ip_protocol = IP_PROTOCOL_UDP then PROTO_BIT_UDP
    else if ip_protocol = IP_PROTOCOL_OSPF then PROTO_BIT_OSPF2
    else if ip_protocol = IP_PROTOCOL_IGMP then PROTO_BIT_IGMP4
    else 0
  | .arp => PROTO_BIT_ARP
  | .icmp => PROTO_BIT_ICMP4

/-- The body of `tap_inject_func` for one packet.  `ifaddrs` gives the local
IPv4 addresses of each interface (consulted by `update_arp_entry`). -/
def tap_inject_pkt (rm : RouterMain) (ifaddrs : Nat → List IfAddrEntry)
    (mode : Mode) (p : Packet) : ClassifyOut :=
  let vlib_tx := rm.iface_to_tap p.rx
  let protos := rm.iface_to_protos p.rx
  if vlib_tx = 0 ∨ vlib_tx = u32max ∨ protos = 0 then
    ⟨.untapped, none, none⟩
  else
    let proto_bit := determine_proto_bit mode p.ip_protocol
    if protos &&& proto_bit = 0 then
      ⟨.untapped, none, none⟩
    else
      let learn :=
        match mode with
        | .arp =>
          if p.arp.opcode = ARP_OPCODE_reply then
            update_arp_entry p.eth_src p.eth_dst p.arp (ifaddrs p.rx)
          else none
        | _ => none
      ⟨.inject, some vlib_tx, learn⟩

/-! ### OS state mirror (`add_del_addr`, `add_del_route`, `add_del_link`) -/

/-- The fields of `ns_addr_t` read by `add_del_addr`. -/
structure NsAddr where
  ifa_index : Nat
  local_addr : Nat
  ifa_prefixlen : Nat

/-- The fields of `ns_route_t` read by `add_del_route`. -/
structure NsRoute where
  oif : Nat
  table : Nat
  dst : Nat
  rtm_dst_len : Nat
  gateway : Nat

/-- The fields of `ns_link_t` read by `add_del_link`. -/
structure NsLink where
  ifi_index : Nat
  ifi_flags : Nat

/-- Constant `IFF_UP`. -/
def IFF_UP : Nat := 1
/-- Constant `VNET_SW_INTERFACE_FLAG_ADMIN_UP`. -/
def VNET_SW_INTERFACE_FLAG_ADMIN_UP : Nat := 1

/-- The call `ip4_add_del_interface_address(main, sw_if_index, addr,
prefixlen, is_del)` issued by `add_del_addr`. -/
structure AddrCall where
  sw_if_index : Nat
  addr : Nat
  prefixlen : Nat
  is_del : Bool
deriving DecidableEq, Repr

/-- The call `ip4_add_del_route_next_hop(...)` issued by `add_del_route`. -/
structure RouteCall where
  is_del : Bool
  dst : Nat
  dst_len : Nat
  gateway : Nat
  sw_if_index : Nat
deriving DecidableEq, Repr

/-- The `vnet_sw_interface_set_flags` payload marshalled to the main thread
by `add_del_link` (`struct set_flags_args`). -/
structure FlagsCall where
  sw_if_index : Nat
  flags : Nat
deriving DecidableEq, Repr

/-- Handler `add_del_addr`: resolve the fast-path interface through the reverse
mapping; no-op when unmapped, otherwise one interface-address add/delete. -/
def add_del_addr (maps : List TapToIface) (a : NsAddr) (is_del : Bool) :
    Option AddrCall :=
  let sw_if_index := reverse_lookup maps a.ifa_index
  if sw_if_index = u32max then none
  else some ⟨sw_if_index, a.local_addr, a.ifa_prefixlen, is_del⟩

/-- Handler `add_del_route`: resolve the fast-path interface; no-op when unmapped or
when the event's routing table is not the main table (254), otherwise one
route add/delete with egress = the mapped fast-path interface. -/
def add_del_route (maps : List TapToIface) (r : NsRoute) (is_del : Bool) :
    Option RouteCall :=
  let sw_if_index := reverse_lookup maps r.oif
  if sw_if_index = u32max ∨ r.table ≠ 254 then none
  else some ⟨is_del, r.dst, r.rtm_dst_len, r.gateway, sw_if_index⟩

/-- Handler `add_del_link`: resolve the fast-path interface; no-op when unmapped,
otherwise marshal a flags update that copies the interface's current flags
and sets or clears the admin-up bit after the OS link's `IFF_UP` flag.
`iface_flags` gives each fast-path interface's current `sw->flags` (a `u8`
in the marshalled struct, hence the `0xFE` clear mask). -/
def add_del_link (maps : List TapToIface) (iface_flags : Nat → Nat)
    (l : NsLink) : Option FlagsCall :=
  let sw_if_index := reverse_lookup maps l.ifi_index
  if sw_if_index = u32max then none
  else
    let flags := iface_flags sw_if_index
    let flags :=
      if l.ifi_flags &&& IFF_UP ≠ 0 then flags ||| VNET_SW_INTERFACE_FLAG_ADMIN_UP
      else flags &&& 0xFE
    some ⟨sw_if_index, flags⟩

/-! ### Multicast arc (`add_ip4_multicast_arc`) -/

/-- A route key in the fast-path table as installed by the arc: destination
`as_u32` plus prefix length.  `0x000000E0` is the network-byte-order word of
`224.0.0.0`. -/
structure RouteKey where
  dst : Nat
  len : Nat
deriving DecidableEq, Repr

/-- The `224.0.0.0/24` route installed by the arc (`a.dst_address.as_u32 =
0x000000E0`, `a.dst_address_length = 24`). -/
def multicast_route : RouteKey := ⟨0x000000E0, 24⟩

/-- The process-wide state touched by `add_ip4_multicast_arc`: the one-shot
latch `ip4_multicast_arc_added` and the fast-path route table. -/
structure ArcState where
  arc_added : Bool
  routes : List RouteKey
deriving DecidableEq, Repr

/-- Function `add_ip4_multicast_arc`: a no-op once the latch is set; otherwise add
the multicast route and set the latch. -/
def add_ip4_multicast_arc (s : ArcState) : ArcState :=
  if s.arc_added then s
  else ⟨true, s.routes ++ [multicast_route]⟩

/-! ### Diversion setup (`tap_inject` CLI handler) -/

/-- The prerequisite checks of `tap_inject`, in source order (OSPF2, then
TCP, then UDP); the first failing check's error message is returned. -/
def check_prereqs (protos : Nat) : Option String :=
  if protos &&& PROTO_BIT_OSPF2 ≠ 0 ∧
      (protos &&& PROTO_BIT_ARP = 0 ∨ protos &&& PROTO_BIT_ICMP4 = 0 ∨
        protos &&& PROTO_BIT_IGMP4 = 0) then
    some "ospf2 requires arp, icmp4, and igmp4"
  else if protos &&& PROTO_BIT_TCP ≠ 0 ∧
      (protos &&& PROTO_BIT_ARP = 0 ∨ protos &&& PROTO_BIT_ICMP4 = 0) then
    some "tcp requires arp and icmp4"
  else if protos &&& PROTO_BIT_UDP ≠ 0 ∧
      (protos &&& PROTO_BIT_ARP = 0 ∨ protos &&& PROTO_BIT_ICMP4 = 0 ∨
        protos &&& PROTO_BIT_IGMP4 = 0) then
    some "udp requires arp, icmp4, and igmp4"
  else none

/-- The parsed CLI arguments of `tap inject <protos> from <iface> as <name>`
(`iface` stays `~0` when missing or invalid, `name` stays null when
missing). -/
structure SetupInput where
  protos : Nat
  iface : Nat
  name : Option String

/-- Outcomes of the external collaborators consulted by `tap_inject`:
`connect` is the result of `do_tap_connect` (on failure, the error message
together with the value left in `tap`, which is `~0` unless
`vnet_tap_connect` had already created the tap); `netns` is the index
returned by `netns_open` (`~0` on failure); `name_osindex` is
`if_nametoindex(name)`. -/
structure SetupEnv where
  connect : Except (String × Nat) Nat
  netns : Nat
  name_osindex : Nat

/-- The protocol handlers registered by `tap_inject` into the dispatch
tables. -/
inductive Registration
  | arp_input
  | icmp4_proto
  | ospf_proto
  | tcp_proto
  | udp_proto
deriving DecidableEq, Repr

/-- The process-wide state read and written by `tap_inject`. -/
structure SetupState where
  rm : RouterMain
  arc : ArcState

/-- The plugin state right after `vlib_plugin_register` (`ns_index = ~0`,
empty reverse mapping, every interface slot at its `interface_add_del`
defaults `~0` / `0`, multicast arc latch clear, no routes installed). -/
def init_state : SetupState := ⟨⟨fun _ => u32max, fun _ => 0, [], u32max⟩, ⟨false, []⟩⟩

/-- The observable outcome of one `tap_inject` invocation: the returned
error (if any), the final state, the taps passed to `vnet_tap_delete`, and
the registered protocol handlers. -/
structure SetupOut where
  err : Option String
  st : SetupState
  deleted : List Nat
  regs : List Registration

/-- Function `tap_inject`, the `tap inject` CLI handler.  The model follows the C
control flow statement by statement.  In the namespace-open failure branch
the C source builds the error with `clib_error_return` but lacks a `return`
statement, so the error value is discarded and execution falls through to
the registration and commit steps; the model reproduces that fall-through. -/
def tap_inject (inp : SetupInput) (env : SetupEnv) (st : SetupState) :
    SetupOut :=
  if inp.protos = 0 then
    ⟨some "no protocols specified", st, [], []⟩
  else if inp.iface = u32max then
    ⟨some "interface name is missing or invalid", st, [], []⟩
  else if inp.name = none then
    ⟨some "host interface name is missing or invalid", st, [], []⟩
  else
    match check_prereqs inp.protos with
    | some e => ⟨some e, st, [], []⟩
    | none =>
      match env.connect with
      | .error (e, tap) =>
        ⟨some e, st, if tap ≠ u32max then [tap] else [], []⟩
      | .ok tap =>
        let need_ns := inp.protos &&& PROTO_BIT_ARP ≠ 0 ∨
          inp.protos &&& PROTO_BIT_ICMP4 ≠ 0
        let open_ns := need_ns ∧ st.rm.ns_index = u32max
        let rm₁ :=
          if open_ns then { st.rm with ns_index := env.netns } else st.rm
        let deleted :=
          if open_ns ∧ env.netns = u32max then [tap] else ([] : List Nat)
        let arc₁ :=
          if inp.protos &&& PROTO_BIT_IGMP4 ≠ 0 then add_ip4_multicast_arc st.arc
          else st.arc
        let regs :=
          (if inp.protos &&& PROTO_BIT_ARP ≠ 0 then [Registration.arp_input] else []) ++
          (if inp.protos &&& PROTO_BIT_ICMP4 ≠ 0 then [Registration.icmp4_proto] else []) ++
          (if inp.protos &&& PROTO_BIT_OSPF2 ≠ 0 then [Registration.ospf_proto] else []) ++
          (if inp.protos &&& PROTO_BIT_TCP ≠ 0 then [Registration.tcp_proto] else []) ++
          (if inp.protos &&& PROTO_BIT_UDP ≠ 0 then [Registration.udp_proto] else [])
        let rm₂ : RouterMain :=
          { rm₁ with
            iface_to_tap := fun i => if i = inp.iface then tap else rm₁.iface_to_tap i
            iface_to_protos := fun i => if i = inp.iface then inp.protos else rm₁.iface_to_protos i
            tap_to_iface := rm₁.tap_to_iface ++ [⟨env.name_osindex, inp.iface⟩] }
        ⟨none, ⟨rm₂, arc₁⟩, deleted, regs⟩

/-! ### Spec-side restatements (used only in claim statements) -/

/-- The protocol bit as the spec describes it: always ARP at the ARP entry
point, always ICMP4 at the ICMP entry point, and at the classified entry
point the bit derived from the IP header's protocol field by TCP→TCP,
UDP→UDP, OSPF→OSPF2, IGMP→IGMP4, with any other value yielding no bit. -/
def spec_proto_bit (mode : Mode) (ip_protocol : Nat) : Option Nat :=
  match mode with
  | .arp => some PROTO_BIT_ARP
  | .icmp => some PROTO_BIT_ICMP4
  | .classified =>
    if ip_protocol = IP_PROTOCOL_TCP then some PROTO_BIT_TCP
    else if ip_protocol = IP_PROTOCOL_UDP then some PROTO_BIT_UDP
    else if ip_protocol = IP_PROTOCOL_OSPF then some PROTO_BIT_OSPF2
    else if ip_protocol = IP_PROTOCOL_IGMP then some PROTO_BIT_IGMP4
    else none

/-- The validation conjunction of the ARP-reply claim, stated after the
spec's wording: hardware type is Ethernet and protocol type IPv4; the target
IP matches a local address of the ingress interface whose subnet also
contains the sender IP; the matched local address is distinct from the
sender IP and literally equals the target IP; the frame source equals the
ARP sender hardware address; the sender IP is non-zero and differs from the
target IP; the frame destination is unicast. -/
def arp_reply_valid (eth_src eth_dst : List Nat) (arp : ArpHeader)
    (addrs : List IfAddrEntry) : Prop :=
  arp.l2_type = ARP_HW_TYPE_ethernet ∧ arp.l3_type = ETHERNET_TYPE_IP4 ∧
  (∃ ifa, ip4_interface_address_matching_destination addrs arp.tpa = some ifa ∧
    ip4_destination_matches_interface arp.spa ifa = true ∧
    ifa.addr ≠ arp.spa ∧ ifa.addr = arp.tpa) ∧
  eth_src = arp.sha ∧ arp.spa ≠ 0 ∧ arp.spa ≠ arp.tpa ∧
  ethernet_address_unicast eth_dst = true

/-- Claim wording for C6: OSPF2 is present without all of its prerequisites
{ARP, ICMP4, IGMP4}. -/
def ospf2_missing_prereq (p : Nat) : Prop :=
  p &&& PROTO_BIT_OSPF2 ≠ 0 ∧
    (p &&& PROTO_BIT_ARP = 0 ∨ p &&& PROTO_BIT_ICMP4 = 0 ∨ p &&& PROTO_BIT_IGMP4 = 0)

/-- Claim wording for C6: TCP is present without all of its prerequisites
{ARP, ICMP4}. -/
def tcp_missing_prereq (p : Nat) : Prop :=
  p &&& PROTO_BIT_TCP ≠ 0 ∧ (p &&& PROTO_BIT_ARP = 0 ∨ p &&& PROTO_BIT_ICMP4 = 0)

/-- Claim wording for C6: UDP is present without all of its prerequisites
{ARP, ICMP4, IGMP4}. -/
def udp_missing_prereq (p : Nat) : Prop :=
  p &&& PROTO_BIT_UDP ≠ 0 ∧
    (p &&& PROTO_BIT_ARP = 0 ∨ p &&& PROTO_BIT_ICMP4 = 0 ∨ p &&& PROTO_BIT_IGMP4 = 0)

instance (p : Nat) : Decidable (ospf2_missing_prereq p) := by
  unfold ospf2_missing_prereq; infer_instance

instance (p : Nat) : Decidable (tcp_missing_prereq p) := by
  unfold tcp_missing_prereq; infer_instance

instance (p : Nat) : Decidable (udp_missing_prereq p) := by
  unfold udp_missing_prereq; infer_instance

/-! #### Parser lemmas -/

theorem proto_scan_lor (tok : String) :
    ∀ (ps : List String) (i a b : Nat),
      proto_scan tok i ps (a ||| b) = a ||| proto_scan tok i ps b := by
  intro ps
  induction ps with
  | nil => intro i a b; rfl
  | cons p ps ih =>
    intro i a b
    simp only [proto_scan]
    by_cases h : tok = p
    · rw [if_pos h, if_pos h, Nat.lor_assoc, ih]
    · rw [if_neg h, if_neg h, ih]

theorem parse_step_eq (protos : Nat) (tok : String) :
    parse_step protos tok = protos ||| tok_bit tok := by
  have h := proto_scan_lor tok proto_strings 0 protos 0
  simpa [parse_step, tok_bit] using h

theorem foldl_parse_step_lor :
    ∀ (l : List String) (a b : Nat),
      l.foldl parse_step (a ||| b) = a ||| l.foldl parse_step b := by
  intro l
  induction l with
  | nil => intro a b; rfl
  | cons t l ih =>
    intro a b
    simp only [List.foldl_cons, parse_step_eq, Nat.lor_assoc, ih]

theorem parse_protos_tokens_cons (t : String) (l : List String) :
    parse_protos_tokens (t :: l) = tok_bit t ||| parse_protos_tokens l := by
  have h := foldl_parse_step_lor l (tok_bit t) 0
  simp only [parse_protos_tokens, List.foldl_cons, parse_step_eq]
  simpa using h

theorem parse_protos_tokens_testBit (l : List String) (i : Nat) :
    (parse_protos_tokens l).testBit i = true ↔
      ∃ t ∈ l, (tok_bit t).testBit i = true := by
  induction l with
  | nil => simp [parse_protos_tokens]
  | cons t l ih =>
    simp only [parse_protos_tokens_cons, Nat.testBit_lor, Bool.or_eq_true, ih,
      List.mem_cons]
    constructor
    · rintro (h | ⟨u, hu, hb⟩)
      · exact ⟨t, Or.inl rfl, h⟩
      · exact ⟨u, Or.inr hu, hb⟩
    · rintro ⟨u, hu, hb⟩
      rcases hu with rfl | hu
      · exact Or.inl hb
      · exact Or.inr ⟨u, hu, hb⟩

theorem parse_protos_tokens_mem_congr (l₁ l₂ : List String)
    (h : ∀ t, t ∈ l₁ ↔ t ∈ l₂) :
    parse_protos_tokens l₁ = parse_protos_tokens l₂ := by
  apply Nat.eq_of_testBit_eq
  intro i
  have h₁ := parse_protos_tokens_testBit l₁ i
  have h₂ := parse_protos_tokens_testBit l₂ i
  by_cases hb : (parse_protos_tokens l₁).testBit i
  · obtain ⟨t, ht, htb⟩ := h₁.mp hb
    have : (parse_protos_tokens l₂).testBit i = true := h₂.mpr ⟨t, (h t).mp ht, htb⟩
    rw [hb, this]
  · have : ¬ (parse_protos_tokens l₂).testBit i = true := by
      intro hc
      obtain ⟨t, ht, htb⟩ := h₂.mp hc
      exact hb (h₁.mpr ⟨t, (h t).mpr ht, htb⟩)
    simp only [Bool.not_eq_true] at hb this
    rw [hb, this]

theorem tok_bit_unrecognized (t : String)
    (h1 : t ≠ "arp") (h2 : t ≠ "icmp4") (h3 : t ≠ "igmp4")
    (h4 : t ≠ "ospf2") (h5 : t ≠ "tcp") (h6 : t ≠ "udp") :
    tok_bit t = 0 := by
  simp [tok_bit, proto_scan, proto_strings, h1, h2, h3, h4, h5, h6]

theorem parse_protos_tokens_foldr (l : List String) :
    parse_protos_tokens l = l.foldr (fun t a => tok_bit t ||| a) 0 := by
  induction l with
  | nil => rfl
  | cons t l ih => rw [parse_protos_tokens_cons, List.foldr_cons, ih]

theorem tok_bit_not_mem (t : String) (h : t ∉ proto_strings) : tok_bit t = 0 := by
  simp only [proto_strings, List.mem_cons, List.not_mem_nil, or_false, not_or] at h
  obtain ⟨h1, h2, h3, h4, h5, h6⟩ := h
  exact tok_bit_unrecognized t h1 h2 h3 h4 h5 h6

/-- C5: parse returns the union of the bits of the recognized tokens among
{arp, icmp4, igmp4, ospf2, tcp, udp} (case-sensitive exact match), and zero
if none are recognized; the result depends only on the set of tokens, so it
is invariant under reordering and duplication of tokens and under insertion
or removal of unrecognized tokens, and in particular
parse "tcp,arp,tcp" = parse "arp,tcp" and parse "tcp,bogus" = parse "tcp". -/
theorem claim_C5 :
    (∀ l : List String, parse_protos_tokens l = l.foldr (fun t a => tok_bit t ||| a) 0)
    ∧ (tok_bit "arp" = PROTO_BIT_ARP ∧ tok_bit "icmp4" = PROTO_BIT_ICMP4 ∧
        tok_bit "igmp4" = PROTO_BIT_IGMP4 ∧ tok_bit "ospf2" = PROTO_BIT_OSPF2 ∧
        tok_bit "tcp" = PROTO_BIT_TCP ∧ tok_bit "udp" = PROTO_BIT_UDP)
    ∧ (∀ t, t ∉ proto_strings → tok_bit t = 0)
    ∧ (∀ l : List String, (∀ t ∈ l, t ∉ proto_strings) → parse_protos_tokens l = 0)
    ∧ (∀ l₁ l₂ : List String, (∀ t, t ∈ l₁ ↔ t ∈ l₂) →
        parse_protos_tokens l₁ = parse_protos_tokens l₂)
    ∧ (∀ (t : String) (l : List String), t ∉ proto_strings →
        parse_protos_tokens (t :: l) = parse_protos_tokens l)
    ∧ parse_protos "tcp,arp,tcp" = parse_protos "arp,tcp"
    ∧ parse_protos "tcp,bogus" = parse_protos "tcp" := by
  refine ⟨parse_protos_tokens_foldr, ⟨by decide, by decide, by decide, by decide,
    by decide, by decide⟩, tok_bit_not_mem, ?_, parse_protos_tokens_mem_congr, ?_, ?_, ?_⟩
  · intro l h
    induction l with
    | nil => rfl
    | cons t l ih =>
      rw [parse_protos_tokens_cons, tok_bit_not_mem t (h t (List.mem_cons_self t l)),
        Nat.zero_or, ih (fun u hu => h u (List.mem_cons_of_mem t hu))]
  · intro t l h
    rw [parse_protos_tokens_cons, tok_bit_not_mem t h, Nat.zero_or]
  · decide
  · decide

/-- Closed-form instance of C5 at concrete inputs: token multisets
{tcp, arp, tcp} and {arp, tcp} parse equally, and a bogus token is
ignored. -/
theorem claim_C5_witness :
    parse_protos_tokens ["tcp", "arp", "tcp"] = parse_protos_tokens ["arp", "tcp"] ∧
    parse_protos_tokens ["bogus", "tcp"] = parse_protos_tokens ["tcp"] := by
  refine ⟨claim_C5.2.2.2.2.1 ["tcp", "arp", "tcp"] ["arp", "tcp"] ?_,
    claim_C5.2.2.2.2.2.1 "bogus" ["tcp"] (by decide)⟩
  intro t
  simp only [List.mem_cons, List.not_mem_nil, or_false]
  tauto

/-- C6: prerequisite validation fails exactly when OSPF2 is present without
all of {ARP, ICMP4, IGMP4}, or TCP without all of {ARP, ICMP4}, or UDP
without all of {ARP, ICMP4, IGMP4}; the error reported is the first failure
in the order OSPF2, TCP, UDP; sets satisfying all three implications pass,
and in particular {ospf2} and {ospf2, arp} are rejected while
{ospf2, arp, icmp4, igmp4} is accepted; a prerequisite failure makes the
setup command return that error. -/
theorem claim_C6 :
    (∀ p : Nat, (check_prereqs p).isSome = true ↔
      (ospf2_missing_prereq p ∨ tcp_missing_prereq p ∨ udp_missing_prereq p))
    ∧ (∀ p : Nat, ospf2_missing_prereq p →
        check_prereqs p = some "ospf2 requires arp, icmp4, and igmp4")
    ∧ (∀ p : Nat, ¬ ospf2_missing_prereq p → tcp_missing_prereq p →
        check_prereqs p = some "tcp requires arp and icmp4")
    ∧ (∀ p : Nat, ¬ ospf2_missing_prereq p → ¬ tcp_missing_prereq p →
        udp_missing_prereq p →
        check_prereqs p = some "udp requires arp, icmp4, and igmp4")
    ∧ (∀ p : Nat, ¬ ospf2_missing_prereq p → ¬ tcp_missing_prereq p →
        ¬ udp_missing_prereq p → check_prereqs p = none)
    ∧ check_prereqs PROTO_BIT_OSPF2 = some "ospf2 requires arp, icmp4, and igmp4"
    ∧ check_prereqs (PROTO_BIT_OSPF2 ||| PROTO_BIT_ARP) =
        some "ospf2 requires arp, icmp4, and igmp4"
    ∧ check_prereqs (PROTO_BIT_OSPF2 ||| PROTO_BIT_ARP ||| PROTO_BIT_ICMP4 |||
        PROTO_BIT_IGMP4) = none
    ∧ (∀ (inp : SetupInput) (env : SetupEnv) (st : SetupState) (e : String),
        inp.protos ≠ 0 → inp.iface ≠ u32max → inp.name ≠ none →
        check_prereqs inp.protos = some e → (tap_inject inp env st).err = some e) := by
  refine ⟨?_, ?_, ?_, ?_, ?_, by decide, by decide, by decide, ?_⟩
  · intro p
    unfold check_prereqs ospf2_missing_prereq tcp_missing_prereq udp_missing_prereq
    split_ifs with h1 h2 h3 <;> simp_all
  · intro p h
    unfold ospf2_missing_prereq at h
    unfold check_prereqs
    split_ifs <;> tauto
  · intro p h1 h2
    unfold ospf2_missing_prereq at h1
    unfold tcp_missing_prereq at h2
    unfold check_prereqs
    split_ifs <;> tauto
  · intro p h1 h2 h3
    unfold ospf2_missing_prereq at h1
    unfold tcp_missing_prereq at h2
    unfold udp_missing_prereq at h3
    unfold check_prereqs
    split_ifs <;> tauto
  · intro p h1 h2 h3
    unfold ospf2_missing_prereq at h1
    unfold tcp_missing_prereq at h2
    unfold udp_missing_prereq at h3
    unfold check_prereqs
    split_ifs <;> tauto
  · intro inp env st e hp hi hn hc
    unfold tap_inject
    rw [if_neg hp, if_neg hi, if_neg hn, hc]

/-- Instance of C6 at a concrete input: {tcp} alone is rejected with the TCP
prerequisite error by both the checker and the setup command. -/
theorem claim_C6_witness :
    check_prereqs PROTO_BIT_TCP = some "tcp requires arp and icmp4" ∧
    (tap_inject ⟨PROTO_BIT_TCP, 1, some "vpp0"⟩
      ⟨Except.ok 5, u32max, 7⟩
      ⟨⟨fun _ => u32max, fun _ => 0, [], u32max⟩, ⟨false, []⟩⟩).err =
      some "tcp requires arp and icmp4" := by
  constructor
  · exact claim_C6.2.2.1 PROTO_BIT_TCP (by decide) (by decide)
  · exact claim_C6.2.2.2.2.2.2.2.2 ⟨PROTO_BIT_TCP, 1, some "vpp0"⟩
      ⟨Except.ok 5, u32max, 7⟩ ⟨⟨fun _ => u32max, fun _ => 0, [], u32max⟩, ⟨false, []⟩⟩
      "tcp requires arp and icmp4" (by decide) (by decide) (by decide)
      (claim_C6.2.2.1 PROTO_BIT_TCP (by decide) (by decide))

/-! #### Classification engine -/

theorem determine_spec_proto_bit (mode : Mode) (ipp protos : Nat) :
    (protos &&& determine_proto_bit mode ipp ≠ 0) ↔
      (∃ b, spec_proto_bit mode ipp = some b ∧ protos &&& b ≠ 0) := by
  cases mode with
  | arp => simp [determine_proto_bit, spec_proto_bit]
  | icmp => simp [determine_proto_bit, spec_proto_bit]
  | classified =>
    unfold determine_proto_bit spec_proto_bit
    split_ifs <;> simp

/-- C1: at each of the three entry points, a packet is redirected (next
stage inject, egress interface set to the ingress interface's shadow id)
if and only if the ingress interface has a configured shadow, a non-empty
enabled-protocol set, and that set contains the packet's determined protocol
bit (always ARP at the ARP entry point, always ICMP4 at the ICMP entry
point, and at the classified entry point the bit derived from the IP
protocol field, other values yielding no bit); in every other case the
packet continues on the untapped path with no egress rewrite and no
learning. -/
theorem claim_C1 (rm : RouterMain) (ifaddrs : Nat → List IfAddrEntry)
    (mode : Mode) (p : Packet) :
    ((tap_inject_pkt rm ifaddrs mode p).next = Next.inject ↔
      (rm.iface_to_tap p.rx ≠ 0 ∧ rm.iface_to_tap p.rx ≠ u32max ∧
        rm.iface_to_protos p.rx ≠ 0 ∧
        ∃ b, spec_proto_bit mode p.ip_protocol = some b ∧
          rm.iface_to_protos p.rx &&& b ≠ 0))
    ∧ ((tap_inject_pkt rm ifaddrs mode p).next = Next.inject →
        (tap_inject_pkt rm ifaddrs mode p).tx = some (rm.iface_to_tap p.rx))
    ∧ ((tap_inject_pkt rm ifaddrs mode p).next ≠ Next.inject →
        tap_inject_pkt rm ifaddrs mode p = ⟨Next.untapped, none, none⟩) := by
  have hb := determine_spec_proto_bit mode p.ip_protocol (rm.iface_to_protos p.rx)
  simp only [tap_inject_pkt]
  by_cases h1 : rm.iface_to_tap p.rx = 0 ∨ rm.iface_to_tap p.rx = u32max ∨
      rm.iface_to_protos p.rx = 0
  · rw [if_pos h1]
    refine ⟨⟨fun h => absurd h (by simp), ?_⟩, fun h => absurd h (by simp), fun _ => rfl⟩
    rintro ⟨ha, hs, hc, -⟩
    rcases h1 with h1 | h1 | h1
    · exact absurd h1 ha
    · exact absurd h1 hs
    · exact absurd h1 hc
  · rw [if_neg h1]
    by_cases h2 : rm.iface_to_protos p.rx &&& determine_proto_bit mode p.ip_protocol = 0
    · rw [if_pos h2]
      refine ⟨⟨fun h => absurd h (by simp), ?_⟩, fun h => absurd h (by simp), fun _ => rfl⟩
      rintro ⟨-, -, -, hbit⟩
      exact absurd h2 (hb.mpr hbit)
    · rw [if_neg h2]
      push_neg at h1
      obtain ⟨hz, hs, hp⟩ := h1
      exact ⟨⟨fun _ => ⟨hz, hs, hp, hb.mp h2⟩, fun _ => rfl⟩, fun _ => rfl,
        fun h => absurd rfl h⟩

/-- Instance of C1 at a concrete input: an interface with shadow id 5 and
protocol set {ARP} redirects an ARP packet, writing egress 5. -/
theorem claim_C1_witness :
    (tap_inject_pkt ⟨fun _ => 5, fun _ => 1, [], u32max⟩ (fun _ => [])
      Mode.arp ⟨0, 0, [], [], ⟨1, 0x800, 1, [], 0, [], 0⟩⟩).tx = some 5 :=
  (claim_C1 ⟨fun _ => 5, fun _ => 1, [], u32max⟩ (fun _ => [])
    Mode.arp ⟨0, 0, [], [], ⟨1, 0x800, 1, [], 0, [], 0⟩⟩).2.1 (by decide)

/-- C10: a shadow interface identifier of 0 is treated exactly like the
none sentinel `~0`: any packet whose ingress interface maps to shadow id 0
(or to `~0`) continues untapped regardless of the enabled-protocol set and
the packet's content. -/
theorem claim_C10 (rm : RouterMain) (ifaddrs : Nat → List IfAddrEntry)
    (mode : Mode) (p : Packet)
    (h : rm.iface_to_tap p.rx = 0 ∨ rm.iface_to_tap p.rx = u32max) :
    tap_inject_pkt rm ifaddrs mode p = ⟨Next.untapped, none, none⟩ := by
  simp only [tap_inject_pkt]
  rcases h with h | h
  · rw [if_pos (Or.inl h)]
  · rw [if_pos (Or.inr (Or.inl h))]

/-- Instance of C10 at a concrete input: an interface whose diversion maps
to shadow id 0 with every protocol enabled still classifies an ARP packet
as untapped. -/
theorem claim_C10_witness :
    tap_inject_pkt ⟨fun _ => 0, fun _ => 63, [], u32max⟩ (fun _ => [])
      Mode.arp ⟨1, 0, [], [], ⟨1, 0x800, 2, [], 0, [], 0⟩⟩ =
      ⟨Next.untapped, none, none⟩ :=
  claim_C10 ⟨fun _ => 0, fun _ => 63, [], u32max⟩ (fun _ => [])
    Mode.arp ⟨1, 0, [], [], ⟨1, 0x800, 2, [], 0, [], 0⟩⟩ (Or.inl rfl)

/-! #### ARP-reply learning -/

open Classical in
theorem update_arp_entry_eq (es ed : List Nat) (arp : ArpHeader)
    (addrs : List IfAddrEntry) :
    update_arp_entry es ed arp addrs =
      if arp_reply_valid es ed arp addrs then some (arp.spa, arp.sha) else none := by
  by_cases hv : arp_reply_valid es ed arp addrs
  · rw [if_pos hv]
    obtain ⟨h1, h2, ⟨ifa, hifa, hsub, hne, heq⟩, hsrc, hnz, hst, huni⟩ := hv
    unfold update_arp_entry
    rw [if_neg (by tauto)]
    simp only [hifa]
    rw [if_neg (fun hc => hc hsub), if_neg hne, if_neg (fun hc => hc heq),
      if_neg (fun hc => hc hsrc), if_neg ?_, if_neg (fun hc => hc huni)]
    rintro (h | h)
    · exact hnz h
    · exact hst h
  · rw [if_neg hv]
    unfold update_arp_entry
    by_cases g0 : arp.l2_type ≠ ARP_HW_TYPE_ethernet ∨ arp.l3_type ≠ ETHERNET_TYPE_IP4
    · rw [if_pos g0]
    · rw [if_neg g0]
      push_neg at g0
      cases hm : ip4_interface_address_matching_destination addrs arp.tpa with
      | none => rfl
      | some ifa =>
        show (if ¬ ip4_destination_matches_interface arp.spa ifa = true then none
          else if ifa.addr = arp.spa then none
          else if ifa.addr ≠ arp.tpa then none
          else if es ≠ arp.sha then none
          else if arp.spa = 0 ∨ arp.spa = arp.tpa then none
          else if ¬ ethernet_address_unicast ed = true then none
          else some (arp.spa, arp.sha)) = none
        by_cases g1 : ip4_destination_matches_interface arp.spa ifa = true
        · rw [if_neg (not_not_intro g1)]
          by_cases g2 : ifa.addr = arp.spa
          · rw [if_pos g2]
          · rw [if_neg g2]
            by_cases g3 : ifa.addr = arp.tpa
            · rw [if_neg (not_not_intro g3)]
              by_cases g4 : es = arp.sha
              · rw [if_neg (not_not_intro g4)]
                by_cases g5 : arp.spa = 0 ∨ arp.spa = arp.tpa
                · rw [if_pos g5]
                · rw [if_neg g5]
                  by_cases g6 : ethernet_address_unicast ed = true
                  · rw [if_neg (not_not_intro g6)]
                    exact absurd ⟨g0.1, g0.2, ⟨ifa, hm, g1, g2, g3⟩, g4,
                      fun h => g5 (Or.inl h), fun h => g5 (Or.inr h), g6⟩ hv
                  · rw [if_pos g6]
              · rw [if_pos g4]
            · rw [if_pos g3]
        · rw [if_pos g1]

/-- C2: a redirected ARP reply triggers the address-resolution upsert of
(sender IP → sender hardware address) if and only if all validation checks
hold (Ethernet/IPv4 types, target IP matching a local address of the
ingress interface whose subnet also contains the sender IP, that matched
address distinct from the sender IP and literally equal to the target IP,
frame source equal to the ARP sender hardware address, sender IP non-zero
and different from the target IP, unicast frame destination); the upsert,
when performed, is exactly the one (sender IP, sender hardware address)
pair; a reply whose frame source differs from its ARP sender hardware
address is never learned; the §8 positive case produces exactly that one
upsert; and packets whose opcode is not reply trigger no learning. -/
theorem claim_C2 :
    (∀ (es ed : List Nat) (arp : ArpHeader) (addrs : List IfAddrEntry),
      (update_arp_entry es ed arp addrs).isSome = true ↔
        arp_reply_valid es ed arp addrs)
    ∧ (∀ (es ed : List Nat) (arp : ArpHeader) (addrs : List IfAddrEntry)
        (x : Nat × List Nat), update_arp_entry es ed arp addrs = some x →
          x = (arp.spa, arp.sha))
    ∧ (∀ (es ed : List Nat) (arp : ArpHeader) (addrs : List IfAddrEntry),
        es ≠ arp.sha → update_arp_entry es ed arp addrs = none)
    ∧ update_arp_entry [0x11, 0x11, 0x11, 0x11, 0x11, 0x11] [0x22, 0, 0, 0, 0, 1]
        ⟨1, 0x0800, 2, [0x11, 0x11, 0x11, 0x11, 0x11, 0x11], 0x0A000005,
          [0, 0, 0, 0, 0, 0], 0x0A000001⟩ [⟨0x0A000001, 24⟩] =
        some (0x0A000005, [0x11, 0x11, 0x11, 0x11, 0x11, 0x11])
    ∧ (∀ (rm : RouterMain) (ifaddrs : Nat → List IfAddrEntry) (p : Packet),
        p.arp.opcode ≠ ARP_OPCODE_reply →
          (tap_inject_pkt rm ifaddrs Mode.arp p).learn = none) := by
  refine ⟨?_, ?_, ?_, by decide, ?_⟩
  · intro es ed arp addrs
    rw [update_arp_entry_eq]
    by_cases hv : arp_reply_valid es ed arp addrs
    · simp [hv]
    · simp [hv]
  · intro es ed arp addrs x h
    rw [update_arp_entry_eq] at h
    by_cases hv : arp_reply_valid es ed arp addrs
    · rw [if_pos hv] at h
      injection h with h
      exact h.symm
    · rw [if_neg hv] at h
      exact absurd h (by simp)
  · intro es ed arp addrs h
    rw [update_arp_entry_eq, if_neg]
    rintro ⟨-, -, -, hsrc, -⟩
    exact h hsrc
  · intro rm ifaddrs p h
    simp only [tap_inject_pkt]
    split_ifs <;> simp [h]

/-- Instance of C2 at a concrete input: the §8 spoofed reply (frame source
AA:AA:AA:AA:AA:AA, ARP sender hardware 11:11:11:11:11:11, all other fields
valid) is not learned. -/
theorem claim_C2_witness :
    update_arp_entry [0xAA, 0xAA, 0xAA, 0xAA, 0xAA, 0xAA] [0x22, 0, 0, 0, 0, 1]
      ⟨1, 0x0800, 2, [0x11, 0x11, 0x11, 0x11, 0x11, 0x11], 0x0A000005,
        [0, 0, 0, 0, 0, 0], 0x0A000001⟩ [⟨0x0A000001, 24⟩] = none :=
  claim_C2.2.2.1 [0xAA, 0xAA, 0xAA, 0xAA, 0xAA, 0xAA] [0x22, 0, 0, 0, 0, 1]
    ⟨1, 0x0800, 2, [0x11, 0x11, 0x11, 0x11, 0x11, 0x11], 0x0A000005,
      [0, 0, 0, 0, 0, 0], 0x0A000001⟩ [⟨0x0A000001, 24⟩] (by decide)

/-! #### OS state mirror -/

theorem reverse_lookup_of_find_none (maps : List TapToIface) (t : Nat)
    (h : maps.find? (fun m => m.tap == t) = none) :
    reverse_lookup maps t = u32max := by
  unfold reverse_lookup
  rw [h]

/-- C7: a route-changed event produces exactly one route add/delete call —
with the event's destination, prefix length and gateway, with egress equal
to the fast-path interface resolved through the reverse mapping, and with
the event's delete flag — if and only if the reverse lookup of the event's
OS interface identifier resolves and the event's routing table identifier
is 254; otherwise zero calls are made. -/
theorem claim_C7 (maps : List TapToIface) (r : NsRoute) (is_del : Bool) :
    ((get_fastpath maps r.oif = none ∨ r.table ≠ 254) →
      add_del_route maps r is_del = none)
    ∧ (∀ s : Nat, get_fastpath maps r.oif = some s → r.table = 254 →
        add_del_route maps r is_del =
          some ⟨is_del, r.dst, r.rtm_dst_len, r.gateway, s⟩) := by
  constructor
  · intro h
    simp only [add_del_route]
    rcases h with h | h
    · unfold get_fastpath at h
      by_cases hu : reverse_lookup maps r.oif = u32max
      · rw [if_pos (Or.inl hu)]
      · rw [if_neg hu] at h
        exact Option.noConfusion h
    · rw [if_pos (Or.inr h)]
  · intro s hs ht
    unfold get_fastpath at hs
    by_cases hu : reverse_lookup maps r.oif = u32max
    · rw [if_pos hu] at hs
      exact Option.noConfusion hs
    · rw [if_neg hu] at hs
      injection hs with hs
      simp only [add_del_route]
      rw [if_neg, hs]
      rintro (h | h)
      · exact hu h
      · exact h ht

/-- Instance of C7 at concrete inputs: with reverse mapping (shadow 7 →
fast-path 3), a main-table (254) route event yields one call with egress 3,
and the same event for table 10 yields none. -/
theorem claim_C7_witness :
    add_del_route [⟨7, 3⟩] ⟨7, 254, 0x0A000000, 24, 0x0A000001⟩ false =
      some ⟨false, 0x0A000000, 24, 0x0A000001, 3⟩ ∧
    add_del_route [⟨7, 3⟩] ⟨7, 10, 0x0A000000, 24, 0x0A000001⟩ false = none :=
  ⟨(claim_C7 [⟨7, 3⟩] ⟨7, 254, 0x0A000000, 24, 0x0A000001⟩ false).2 3 (by decide) rfl,
   (claim_C7 [⟨7, 3⟩] ⟨7, 10, 0x0A000000, 24, 0x0A000001⟩ false).1 (Or.inr (by decide))⟩

/-- C8: an OS-state-change event whose shadow OS interface identifier has no
entry in the reverse mapping is discarded by all three mirror handlers:
the lookup yields none and none of the address, route, or flags operations
is invoked. -/
theorem claim_C8 (maps : List TapToIface) (iface_flags : Nat → Nat)
    (a : NsAddr) (r : NsRoute) (l : NsLink) (d₁ d₂ : Bool)
    (ha : maps.find? (fun m => m.tap == a.ifa_index) = none)
    (hr : maps.find? (fun m => m.tap == r.oif) = none)
    (hl : maps.find? (fun m => m.tap == l.ifi_index) = none) :
    get_fastpath maps a.ifa_index = none ∧
    add_del_addr maps a d₁ = none ∧
    add_del_route maps r d₂ = none ∧
    add_del_link maps iface_flags l = none := by
  refine ⟨?_, ?_, ?_, ?_⟩
  · unfold get_fastpath
    rw [if_pos (reverse_lookup_of_find_none maps a.ifa_index ha)]
  · simp only [add_del_addr]
    rw [if_pos (reverse_lookup_of_find_none maps a.ifa_index ha)]
  · simp only [add_del_route]
    rw [if_pos (Or.inl (reverse_lookup_of_find_none maps r.oif hr))]
  · simp only [add_del_link]
    rw [if_pos (reverse_lookup_of_find_none maps l.ifi_index hl)]

/-- Instance of C8 at a concrete input: with an empty reverse mapping, the
three handlers all discard events for shadow identifier 9. -/
theorem claim_C8_witness :
    get_fastpath [] 9 = none ∧
    add_del_addr [] ⟨9, 0x0A000001, 24⟩ false = none ∧
    add_del_route [] ⟨9, 254, 0x0A000000, 24, 0x0A000001⟩ false = none ∧
    add_del_link [] (fun _ => 0) ⟨9, 1⟩ = none :=
  claim_C8 [] (fun _ => 0) ⟨9, 0x0A000001, 24⟩ ⟨9, 254, 0x0A000000, 24, 0x0A000001⟩
    ⟨9, 1⟩ false false rfl rfl rfl

/-! #### Multicast arc -/

/-- C9: the multicast forwarding arc is installed at most once per process:
when the one-shot latch is clear the arc operation appends the 224.0.0.0/24
route and sets the latch, when the latch is set it is a no-op, it is
idempotent, and across any sequence of invocations (one per IGMP4-enabled
diversion setup) every invocation after the first leaves the state
unchanged. -/
theorem claim_C9 :
    (∀ s : ArcState, s.arc_added = false →
      add_ip4_multicast_arc s = ⟨true, s.routes ++ [multicast_route]⟩)
    ∧ (∀ s : ArcState, s.arc_added = true → add_ip4_multicast_arc s = s)
    ∧ (∀ s : ArcState, (add_ip4_multicast_arc s).arc_added = true)
    ∧ (∀ s : ArcState,
        add_ip4_multicast_arc (add_ip4_multicast_arc s) = add_ip4_multicast_arc s)
    ∧ (∀ (n : Nat) (s : ArcState),
        add_ip4_multicast_arc^[n + 1] s = add_ip4_multicast_arc s) := by
  have hset : ∀ s : ArcState, (add_ip4_multicast_arc s).arc_added = true := by
    intro s
    unfold add_ip4_multicast_arc
    by_cases h : s.arc_added
    · rw [if_pos h]
      exact h
    · rw [if_neg h]
  have hsome : ∀ s : ArcState, s.arc_added = true → add_ip4_multicast_arc s = s := by
    intro s h
    unfold add_ip4_multicast_arc
    rw [if_pos h]
  have hidem : ∀ s : ArcState,
      add_ip4_multicast_arc (add_ip4_multicast_arc s) = add_ip4_multicast_arc s :=
    fun s => hsome (add_ip4_multicast_arc s) (hset s)
  refine ⟨?_, hsome, hset, hidem, ?_⟩
  · intro s h
    unfold add_ip4_multicast_arc
    rw [if_neg]
    rw [h]
    exact Bool.false_ne_true
  · intro n
    induction n with
    | zero => intro s; rfl
    | succ n ih =>
      intro s
      rw [Function.iterate_succ_apply, ih (add_ip4_multicast_arc s), hidem]

/-- Instance of C9 at a concrete input: from a fresh state the first
invocation installs the 224.0.0.0/24 route and the second is a no-op. -/
theorem claim_C9_witness :
    add_ip4_multicast_arc ⟨false, []⟩ = ⟨true, [multicast_route]⟩ ∧
    add_ip4_multicast_arc ⟨true, [multicast_route]⟩ = ⟨true, [multicast_route]⟩ :=
  ⟨claim_C9.1 ⟨false, []⟩ rfl, claim_C9.2.1 ⟨true, [multicast_route]⟩ rfl⟩

/-! #### Diversion setup -/

/-- C4: when diversion setup fails during validation (empty protocol set,
invalid interface, missing name, unmet prerequisites) or during
shadow-interface creation/attachment, an error is returned and the core's
tables — forward mapping (iface_to_tap, iface_to_protos) and reverse
mapping (tap_to_iface) — are exactly as they were before the call. -/
theorem claim_C4 (inp : SetupInput) (env : SetupEnv) (st : SetupState)
    (h : inp.protos = 0 ∨ inp.iface = u32max ∨ inp.name = none ∨
      (check_prereqs inp.protos).isSome = true ∨
      ∃ e t, env.connect = Except.error (e, t)) :
    (tap_inject inp env st).err.isSome = true ∧
    (tap_inject inp env st).st.rm.iface_to_tap = st.rm.iface_to_tap ∧
    (tap_inject inp env st).st.rm.iface_to_protos = st.rm.iface_to_protos ∧
    (tap_inject inp env st).st.rm.tap_to_iface = st.rm.tap_to_iface := by
  unfold tap_inject
  by_cases h1 : inp.protos = 0
  · rw [if_pos h1]
    exact ⟨rfl, rfl, rfl, rfl⟩
  · rw [if_neg h1]
    by_cases h2 : inp.iface = u32max
    · rw [if_pos h2]
      exact ⟨rfl, rfl, rfl, rfl⟩
    · rw [if_neg h2]
      by_cases h3 : inp.name = none
      · rw [if_pos h3]
        exact ⟨rfl, rfl, rfl, rfl⟩
      · rw [if_neg h3]
        cases hc : check_prereqs inp.protos with
        | some e => exact ⟨rfl, rfl, rfl, rfl⟩
        | none =>
          have hconn : ∃ e t, env.connect = Except.error (e, t) := by
            rcases h with h | h | h | h | h
            · exact absurd h h1
            · exact absurd h h2
            · exact absurd h h3
            · rw [hc] at h
              exact absurd h (by simp)
            · exact h
          obtain ⟨e, t, he⟩ := hconn
          rw [he]
          exact ⟨rfl, rfl, rfl, rfl⟩

/-- Instance of C4 at a concrete input: an empty protocol set is rejected
with an error and the fresh state's tables are untouched. -/
theorem claim_C4_witness :
    (tap_inject ⟨0, 1, some "vpp1"⟩ ⟨Except.ok 5, u32max, 7⟩ init_state).err.isSome
        = true ∧
    (tap_inject ⟨0, 1, some "vpp1"⟩ ⟨Except.ok 5, u32max, 7⟩
        init_state).st.rm.iface_to_tap = init_state.rm.iface_to_tap ∧
    (tap_inject ⟨0, 1, some "vpp1"⟩ ⟨Except.ok 5, u32max, 7⟩
        init_state).st.rm.iface_to_protos = init_state.rm.iface_to_protos ∧
    (tap_inject ⟨0, 1, some "vpp1"⟩ ⟨Except.ok 5, u32max, 7⟩
        init_state).st.rm.tap_to_iface = init_state.rm.tap_to_iface :=
  claim_C4 ⟨0, 1, some "vpp1"⟩ ⟨Except.ok 5, u32max, 7⟩ init_state (Or.inl rfl)

/-- C3: evaluation of the setup command at the namespace-open failure.  With
ARP enabled, a fresh process state (no subscription yet), a successful tap
connect (tap id 5) and a failing `netns_open`, the C source deletes the tap
but — because the `clib_error_return(0, "failed to open namespace")`
statement lacks a `return` — discards the error and falls through: the
command reports success, registers the ARP handler, and commits both the
forward mapping (interface 1 → deleted tap 5, protocol set {ARP}) and the
reverse mapping entry, contradicting the claimed rollback-and-error
behaviour. -/
theorem claim_C3 :
    (tap_inject ⟨PROTO_BIT_ARP, 1, some "vpp0"⟩ ⟨Except.ok 5, u32max, 7⟩
        init_state).err = none ∧
    (tap_inject ⟨PROTO_BIT_ARP, 1, some "vpp0"⟩ ⟨Except.ok 5, u32max, 7⟩
        init_state).deleted = [5] ∧
    (tap_inject ⟨PROTO_BIT_ARP, 1, some "vpp0"⟩ ⟨Except.ok 5, u32max, 7⟩
        init_state).st.rm.iface_to_tap 1 = 5 ∧
    (tap_inject ⟨PROTO_BIT_ARP, 1, some "vpp0"⟩ ⟨Except.ok 5, u32max, 7⟩
        init_state).st.rm.iface_to_protos 1 = PROTO_BIT_ARP ∧
    (tap_inject ⟨PROTO_BIT_ARP, 1, some "vpp0"⟩ ⟨Except.ok 5, u32max, 7⟩
        init_state).st.rm.tap_to_iface = [⟨7, 1⟩] ∧
    (tap_inject ⟨PROTO_BIT_ARP, 1, some "vpp0"⟩ ⟨Except.ok 5, u32max, 7⟩
        init_state).regs = [Registration.arp_input] ∧
    (tap_inject ⟨PROTO_BIT_ARP, 1, some "vpp0"⟩ ⟨Except.ok 5, u32max, 7⟩
        init_state).st.rm.ns_index = u32max := by
  refine ⟨by decide, by decide, by decide, by decide, by decide, by decide, by decide⟩

end Router
